import Mathlib

/-
Verification of the net-scanner-manager data schema (src/app/models.py)
and of the scan lifecycle / reconciliation engine that the specification
describes on top of it.  Persistent records and the create/update DTOs are
translated field-by-field from models.py; datetimes are modelled as Nat
timestamps, the JSON scan_options bag as an association list, and Decimal
latitude/longitude as scaled integers.  Operations that the repository does
not ship (the engine) are modelled from the spec and marked as such.
-/

namespace App

/-- Network record, translated from models.py lines 8-21.  Field constraints
in the source are max_length bounds only. -/
structure Network where
  id : Option Nat
  name : String
  subnet : String
  gateway_ip : String
  description : String
  is_active : Bool
  created_at : Nat
  updated_at : Nat
deriving DecidableEq

/-- Schema validation for Network: exactly the Field(...) constraints
declared in models.py (max_length bounds; nothing else is checked). -/
def Network.schemaValid (n : Network) : Prop :=
  n.name.length ≤ 100 ∧ n.subnet.length ≤ 18 ∧ n.gateway_ip.length ≤ 15 ∧
    n.description.length ≤ 500

instance (n : Network) : Decidable n.schemaValid := by
  unfold Network.schemaValid; infer_instance

/-- Device record, translated from models.py lines 24-41. -/
structure Device where
  id : Option Nat
  ip_address : String
  mac_address : String
  hostname : String
  device_type : String
  manufacturer : String
  operating_system : String
  is_online : Bool
  last_seen : Nat
  network_id : Nat
  created_at : Nat
  updated_at : Nat
deriving DecidableEq

/-- IPAddress record, translated from models.py lines 44-62.  Decimal
latitude/longitude become scaled integers. -/
structure IPAddress where
  id : Option Nat
  ip_address : String
  country : String
  country_code : String
  city : String
  region : String
  latitude : Option Int
  longitude : Option Int
  isp : String
  organization : String
  is_monitored : Bool
  notes : String
  created_at : Nat
  updated_at : Nat
deriving DecidableEq

/-- Port record, translated from models.py lines 65-81.  Note that both
device_id and ip_address_id are Optional with default None in the source;
the schema itself carries no constraint tying the two together. -/
structure Port where
  id : Option Nat
  port_number : Nat
  protocol : String
  state : String
  service : String
  version : String
  banner : String
  device_id : Option Nat
  ip_address_id : Option Nat
  last_scanned : Nat
  created_at : Nat
deriving DecidableEq

/-- Schema validation for Port: exactly the Field(...) constraints declared
in models.py lines 68-78 (port_number range and max_length bounds).  The
source declares no constraint on the device_id / ip_address_id pair. -/
def Port.schemaValid (p : Port) : Prop :=
  1 ≤ p.port_number ∧ p.port_number ≤ 65535 ∧ p.protocol.length ≤ 10 ∧
    p.state.length ≤ 20 ∧ p.service.length ≤ 100 ∧ p.version.length ≤ 200 ∧
    p.banner.length ≤ 500

instance (p : Port) : Decidable p.schemaValid := by
  unfold Port.schemaValid; infer_instance

/-- Mutual-exclusion invariant on a Port's parent: exactly one of device_id
and ip_address_id is set. -/
def Port.exactlyOneParent (p : Port) : Prop :=
  (p.device_id ≠ none ∧ p.ip_address_id = none) ∨
    (p.device_id = none ∧ p.ip_address_id ≠ none)

instance (p : Port) : Decidable p.exactlyOneParent := by
  unfold Port.exactlyOneParent; infer_instance

/-- NetworkScan record, translated from models.py lines 84-100.  The JSON
scan_options bag is modelled as an association list. -/
structure NetworkScan where
  id : Option Nat
  network_id : Nat
  scan_type : String
  status : String
  devices_found : Nat
  ports_found : Nat
  scan_duration : Option Nat
  scan_options : List (String × String)
  error_message : String
  started_at : Nat
  completed_at : Option Nat
  created_at : Nat
deriving DecidableEq

/-- Construction of a NetworkScan from a network_id alone, every other
column taking the default declared in models.py lines 87-98 (the two
datetime default factories receive the current clock value). -/
def mkNetworkScan (nid : Nat) (now : Nat) : NetworkScan :=
  { id := none
    network_id := nid
    scan_type := "ping_sweep"
    status := "pending"
    devices_found := 0
    ports_found := 0
    scan_duration := none
    scan_options := []
    error_message := ""
    started_at := now
    completed_at := none
    created_at := now }

/-- NetworkCreate DTO, translated from models.py lines 104-108. -/
structure NetworkCreate where
  name : String
  subnet : String
  gateway_ip : String
  description : String
deriving DecidableEq

/-- Schema validation for NetworkCreate: exactly the Field(...) constraints
declared in models.py lines 105-108 (max_length bounds only; the source
performs no CIDR or address parsing). -/
def NetworkCreate.schemaValid (c : NetworkCreate) : Prop :=
  c.name.length ≤ 100 ∧ c.subnet.length ≤ 18 ∧ c.gateway_ip.length ≤ 15 ∧
    c.description.length ≤ 500

instance (c : NetworkCreate) : Decidable c.schemaValid := by
  unfold NetworkCreate.schemaValid; infer_instance

/-- NetworkUpdate DTO, translated from models.py lines 111-116. -/
structure NetworkUpdate where
  name : Option String
  subnet : Option String
  gateway_ip : Option String
  description : Option String
  is_active : Option Bool
deriving DecidableEq

/-- DeviceCreate DTO, translated from models.py lines 119-124. -/
structure DeviceCreate where
  ip_address : String
  mac_address : String
  hostname : String
  device_type : String
  network_id : Nat
deriving DecidableEq

/-- DeviceUpdate DTO, translated from models.py lines 127-132.  The DTO
declares hostname, device_type, manufacturer, operating_system and
is_online only: it has no ip_address and no network_id field. -/
structure DeviceUpdate where
  hostname : Option String
  device_type : Option String
  manufacturer : Option String
  operating_system : Option String
  is_online : Option Bool
deriving DecidableEq

/-- IPAddressCreate DTO, translated from models.py lines 135-137. -/
structure IPAddressCreate where
  ip_address : String
  notes : String
deriving DecidableEq

/-- IPAddressUpdate DTO, translated from models.py lines 140-150. -/
structure IPAddressUpdate where
  country : Option String
  country_code : Option String
  city : Option String
  region : Option String
  latitude : Option Int
  longitude : Option Int
  isp : Option String
  organization : Option String
  is_monitored : Option Bool
  notes : Option String
deriving DecidableEq

/-- PortCreate DTO, translated from models.py lines 153-157.  Both parent
ids are Optional with default None; the source declares no constraint
tying them together. -/
structure PortCreate where
  port_number : Nat
  protocol : String
  device_id : Option Nat
  ip_address_id : Option Nat
deriving DecidableEq

/-- Schema validation for PortCreate: exactly the Field(...) constraints of
models.py lines 154-155. -/
def PortCreate.schemaValid (c : PortCreate) : Prop :=
  1 ≤ c.port_number ∧ c.port_number ≤ 65535 ∧ c.protocol.length ≤ 10

instance (c : PortCreate) : Decidable c.schemaValid := by
  unfold PortCreate.schemaValid; infer_instance

/-- NetworkScanCreate DTO, translated from models.py lines 160-163. -/
structure NetworkScanCreate where
  network_id : Nat
  scan_type : String
  scan_options : List (String × String)
deriving DecidableEq

/-- NetworkScanUpdate DTO, translated from models.py lines 166-172. -/
structure NetworkScanUpdate where
  status : Option String
  devices_found : Option Nat
  ports_found : Option Nat
  scan_duration : Option Nat
  error_message : Option String
  completed_at : Option Nat
deriving DecidableEq

/-- Splits a character list at every occurrence of the separator. -/
def splitChar (sep : Char) : List Char → List (List Char)
  | [] => [[]]
  | c :: cs =>
    match splitChar sep cs with
    | [] => if c = sep then [[], [c]] else [[c]]
    | r :: rs => if c = sep then [] :: r :: rs else (c :: r) :: rs

/-- Decimal value of a digit string. -/
def digitsVal (cs : List Char) : Nat :=
  cs.foldl (fun a c => a * 10 + (c.toNat - 48)) 0

/-- Parses one dotted-quad octet: 1-3 decimal digits with value at most
255. -/
def parseOctet (cs : List Char) : Option Nat :=
  if cs ≠ [] ∧ cs.length ≤ 3 ∧ cs.all Char.isDigit then
    if digitsVal cs ≤ 255 then some (digitsVal cs) else none
  else none

/-- Modelled from the spec: the Probe Result Ingestor "normalizes IP to
canonical dotted form"; this parses a canonical dotted-quad IPv4 address
into its 32-bit value. -/
def ipToNat (s : String) : Option Nat :=
  match (splitChar '.' s.data).map parseOctet with
  | [some a, some b, some c, some d] => some (((a * 256 + b) * 256 + c) * 256 + d)
  | _ => none

/-- Modelled from the spec: CIDR notation "e.g., 192.168.1.0/24" (glossary);
parses a subnet string into its base address and mask length. -/
def parseCIDR (s : String) : Option (Nat × Nat) :=
  match splitChar '/' s.data with
  | [ipPart, lenPart] =>
    match ipToNat (String.mk ipPart) with
    | some ip =>
      if lenPart ≠ [] ∧ lenPart.length ≤ 2 ∧ lenPart.all Char.isDigit ∧
          digitsVal lenPart ≤ 32 then
        some (ip, digitsVal lenPart)
      else none
    | none => none
  | _ => none

/-- Modelled from the spec: "subnet is a valid CIDR" (data-model invariant
for Network).  True iff the string parses as dotted-quad/len CIDR. -/
def isValidCIDR (s : String) : Bool :=
  (parseCIDR s).isSome

/-- Modelled from the spec: "gateway_ip lies within subnet" and the
Reconciler's LAN-versus-external decision; an address is in a subnet when
it matches the subnet base on the mask-length high bits. -/
def ipInSubnet (subnet ip : String) : Bool :=
  match parseCIDR subnet, ipToNat ip with
  | some (net, len), some a => a / 2 ^ (32 - len) == net / 2 ^ (32 - len)
  | _, _ => false

/-- Modelled from the spec: the Reconciler merge policy for one string
field, "non-empty incoming fields overwrite; empty/missing incoming fields
preserve existing values". -/
def mergeStr (old : String) (incoming : Option String) : String :=
  match incoming with
  | none => old
  | some s => if s = "" then old else s

/-- Modelled from the spec: the merge policy for a non-string field, where
only a missing (None) incoming value preserves the existing one. -/
def mergeVal {α : Type} (old : α) (incoming : Option α) : α :=
  match incoming with
  | none => old
  | some v => v

/-- Modelled from the spec: the merge policy for an optional column updated
through an optional DTO field (missing incoming value preserves). -/
def mergeOptVal {α : Type} (old : Option α) (incoming : Option α) : Option α :=
  match incoming with
  | none => old
  | some v => some v

/-- Modelled from the spec: application of a NetworkUpdate DTO to a Network
record under the merge policy; fields absent from the DTO are untouched. -/
def applyNetworkUpdate (n : Network) (u : NetworkUpdate) : Network :=
  { n with
    name := mergeStr n.name u.name
    subnet := mergeStr n.subnet u.subnet
    gateway_ip := mergeStr n.gateway_ip u.gateway_ip
    description := mergeStr n.description u.description
    is_active := mergeVal n.is_active u.is_active }

/-- Modelled from the spec: application of a DeviceUpdate DTO to a Device
record under the merge policy; the DTO carries no ip_address or network_id
field, so the identifying pair cannot be touched. -/
def applyDeviceUpdate (d : Device) (u : DeviceUpdate) : Device :=
  { d with
    hostname := mergeStr d.hostname u.hostname
    device_type := mergeStr d.device_type u.device_type
    manufacturer := mergeStr d.manufacturer u.manufacturer
    operating_system := mergeStr d.operating_system u.operating_system
    is_online := mergeVal d.is_online u.is_online }

/-- Modelled from the spec: application of an IPAddressUpdate DTO to an
IPAddress record under the merge policy. -/
def applyIPAddressUpdate (a : IPAddress) (u : IPAddressUpdate) : IPAddress :=
  { a with
    country := mergeStr a.country u.country
    country_code := mergeStr a.country_code u.country_code
    city := mergeStr a.city u.city
    region := mergeStr a.region u.region
    latitude := mergeOptVal a.latitude u.latitude
    longitude := mergeOptVal a.longitude u.longitude
    isp := mergeStr a.isp u.isp
    organization := mergeStr a.organization u.organization
    is_monitored := mergeVal a.is_monitored u.is_monitored
    notes := mergeStr a.notes u.notes }

/-- Terminal scan statuses per the lifecycle state machine: completed and
failed admit no further transition. -/
def NetworkScan.isTerminal (s : NetworkScan) : Prop :=
  s.status = "completed" ∨ s.status = "failed"

instance (s : NetworkScan) : Decidable s.isTerminal := by
  unfold NetworkScan.isTerminal; infer_instance

/-- Modelled from the spec: application of a NetworkScanUpdate DTO to a
NetworkScan record.  "completed/failed are terminal - no further mutation
except read": an update against a terminal scan leaves the record as it
is; otherwise fields merge under the merge policy. -/
def applyScanUpdate (s : NetworkScan) (u : NetworkScanUpdate) : NetworkScan :=
  if s.isTerminal then s
  else
    { s with
      status := mergeStr s.status u.status
      devices_found := mergeVal s.devices_found u.devices_found
      ports_found := mergeVal s.ports_found u.ports_found
      scan_duration := mergeOptVal s.scan_duration u.scan_duration
      error_message := mergeStr s.error_message u.error_message
      completed_at := mergeOptVal s.completed_at u.completed_at }

/-- All-absent NetworkUpdate DTO (every field omitted). -/
def noneNetworkUpdate : NetworkUpdate :=
  { name := none, subnet := none, gateway_ip := none, description := none,
    is_active := none }

/-- All-absent DeviceUpdate DTO (every field omitted). -/
def noneDeviceUpdate : DeviceUpdate :=
  { hostname := none, device_type := none, manufacturer := none,
    operating_system := none, is_online := none }

/-- All-absent IPAddressUpdate DTO (every field omitted). -/
def noneIPAddressUpdate : IPAddressUpdate :=
  { country := none, country_code := none, city := none, region := none,
    latitude := none, longitude := none, isp := none, organization := none,
    is_monitored := none, notes := none }

/-- All-absent NetworkScanUpdate DTO (every field omitted). -/
def noneScanUpdate : NetworkScanUpdate :=
  { status := none, devices_found := none, ports_found := none,
    scan_duration := none, error_message := none, completed_at := none }

/-- Failure conditions of the scan lifecycle dispatch, per the spec's error
taxonomy (ConflictError for a network that already has a running scan). -/
inductive ScanError where
  | conflict
  | notFound
  | invalidState
deriving DecidableEq

/-- Modelled from the spec: the Scan Lifecycle Manager's pending-to-running
dispatch.  It locates the target scan, rejects a non-pending target, and
rejects with a Conflict when a scan for the same network is already
running, leaving the scan table untouched in every rejecting case;
otherwise it marks the target running and stamps started_at. -/
def startScan (db : List NetworkScan) (tid : Nat) (now : Nat) :
    List NetworkScan × Option ScanError :=
  match db.find? (fun x => x.id == some tid) with
  | none => (db, some ScanError.notFound)
  | some t =>
    if t.status ≠ "pending" then (db, some ScanError.invalidState)
    else if db.any (fun x => x.network_id == t.network_id && x.status == "running") then
      (db, some ScanError.conflict)
    else
      (db.map (fun x =>
        if x.id == some tid then { x with status := "running", started_at := now }
        else x), none)

/-- Raw per-port probe outcome, as described in the spec's ingestor input
shape (number, protocol, state, optional service and banner). -/
structure ProbePort where
  number : Nat
  protocol : String
  state : String
  service : String
  banner : String
deriving DecidableEq

/-- Raw per-host probe outcome: ip, optional mac and hostname, and the
observed ports. -/
structure Probe where
  ip : String
  mac : String
  hostname : String
  ports : List ProbePort
deriving DecidableEq

/-- Modelled from the spec: ingestor validation of one port result, "port
numbers in [1,65535], protocol in {tcp,udp}, state in
{open,closed,filtered}". -/
def validProbePort (q : ProbePort) : Bool :=
  decide (1 ≤ q.number) && decide (q.number ≤ 65535) &&
    (q.protocol == "tcp" || q.protocol == "udp") &&
    (q.state == "open" || q.state == "closed" || q.state == "filtered")

/-- Modelled from the spec: the canonical port-reconciliation jobs of a
probe sequence: every valid port result, tagged with its host's address;
malformed results are excluded here and recorded as scan errors. -/
def portJobs : List Probe → List (String × ProbePort)
  | [] => []
  | p :: ps => (p.ports.filter validProbePort).map (fun q => (p.ip, q)) ++ portJobs ps

/-- Modelled from the spec: the rejected (malformed) port results of a probe
sequence, tagged with their host's address. -/
def invalidJobs : List Probe → List (String × ProbePort)
  | [] => []
  | p :: ps =>
    (p.ports.filter (fun q => !validProbePort q)).map (fun q => (p.ip, q)) ++
      invalidJobs ps

/-- Error-summary line for one rejected port result, kept in the scan's
error_message ("every dropped/rejected record is ... reflected in the
scan's error_message summary"). -/
def describeRejected (j : String × ProbePort) : String :=
  "rejected " ++ j.1 ++ " " ++ Nat.repr j.2.number ++ "/" ++ j.2.protocol ++
    "/" ++ j.2.state

/-- Appends a key to a key list when it is not already present; the key
trace left by an upsert. -/
def insertIfNew {κ : Type} [DecidableEq κ] (ks : List κ) (k : κ) : List κ :=
  if k ∈ ks then ks else ks ++ [k]

/-- Modelled from the spec: the Reconciler's upsert discipline, generic in
the record type and its uniqueness key: when a row with the key exists it
is updated in place, otherwise a fresh row is appended. -/
def upsert {α κ : Type} [DecidableEq κ] (key : α → κ) (k : κ) (upd : α → α)
    (fresh : α) (xs : List α) : List α :=
  if k ∈ xs.map key then
    xs.map (fun x => if key x = k then upd x else x)
  else xs ++ [fresh]

/-- Uniqueness key of a Device: the (network_id, ip_address) pair. -/
def deviceKey (d : Device) : Nat × String :=
  (d.network_id, d.ip_address)

/-- Lookup signature of a Device row: its id together with its key; owner
resolution reads nothing else of the row. -/
def deviceSig (d : Device) : Option Nat × Nat × String :=
  (d.id, d.network_id, d.ip_address)

/-- Uniqueness key of an IPAddress row: the address string (unique column
in models.py line 48). -/
def ipKey (a : IPAddress) : String :=
  a.ip_address

/-- Lookup signature of an IPAddress row: its id together with its key. -/
def ipSig (a : IPAddress) : Option Nat × String :=
  (a.id, a.ip_address)

/-- Uniqueness key of a Port row: its parent reference pair together with
(port_number, protocol), the spec's "match existing Port by (parent,
port_number, protocol)". -/
def portKey (r : Port) : Option Nat × Option Nat × Nat × String :=
  (r.device_id, r.ip_address_id, r.port_number, r.protocol)

/-- Modelled from the spec: the Reconciler merge of a fresh probe outcome
into an existing Device row: refresh mutable attributes under the merge
policy, mark the device online and stamp last_seen; the identifying pair
and the row id are untouched. -/
def mergeDevice (now : Nat) (p : Probe) (d : Device) : Device :=
  { d with
    mac_address := mergeStr d.mac_address (some p.mac)
    hostname := mergeStr d.hostname (some p.hostname)
    is_online := true
    last_seen := now
    updated_at := now }

/-- Modelled from the spec: the Device row created on first sighting of an
address inside the scanned network. -/
def freshDevice (fid : Nat) (nid : Nat) (now : Nat) (p : Probe) : Device :=
  { id := some fid
    ip_address := p.ip
    mac_address := p.mac
    hostname := p.hostname
    device_type := "unknown"
    manufacturer := ""
    operating_system := ""
    is_online := true
    last_seen := now
    network_id := nid
    created_at := now
    updated_at := now }

/-- Modelled from the spec: enrichment of an existing IPAddress row when a
scan references the address again (long-lived, rarely mutated). -/
def mergeIPRow (now : Nat) (a : IPAddress) : IPAddress :=
  { a with updated_at := now }

/-- Modelled from the spec: the IPAddress row created lazily when a port or
scan first references an address outside the scanned network. -/
def freshIPRow (fid : Nat) (now : Nat) (p : Probe) : IPAddress :=
  { id := some fid
    ip_address := p.ip
    country := ""
    country_code := ""
    city := ""
    region := ""
    latitude := none
    longitude := none
    isp := ""
    organization := ""
    is_monitored := true
    notes := ""
    created_at := now
    updated_at := now }

/-- Modelled from the spec: the Reconciler merge of a re-observed port into
its existing Port row: update state, service, banner and last_scanned; the
key fields and the parent reference are untouched. -/
def mergePort (now : Nat) (q : ProbePort) (r : Port) : Port :=
  { r with
    state := q.state
    service := mergeStr r.service (some q.service)
    banner := mergeStr r.banner (some q.banner)
    last_scanned := now }

/-- Parent reference of a port chosen at ingestion time: a Device row id
for a LAN target, an IPAddress row id for an external target. -/
def parentPair : Sum Nat Nat → Option Nat × Option Nat
  | Sum.inl i => (some i, none)
  | Sum.inr i => (none, some i)

/-- Key a port job reconciles under, given its resolved parent. -/
def portKeyOf (o : Sum Nat Nat) (q : ProbePort) : Option Nat × Option Nat × Nat × String :=
  ((parentPair o).1, (parentPair o).2, q.number, q.protocol)

/-- Modelled from the spec: the Port row created when a port is first
observed; its parent is exactly the resolved Device or IPAddress. -/
def freshPort (fid : Nat) (o : Sum Nat Nat) (q : ProbePort) (now : Nat) : Port :=
  { id := some fid
    port_number := q.number
    protocol := q.protocol
    state := q.state
    service := q.service
    version := ""
    banner := q.banner
    device_id := (parentPair o).1
    ip_address_id := (parentPair o).2
    last_scanned := now
    created_at := now }

/-- Modelled from the spec: resolution of a port's parent from the lookup
signatures of the device and address tables: inside the subnet the owning
Device row's id, outside it the IPAddress row's id. -/
def ownerOf (nid : Nat) (subnet : String) (dsig : List (Option Nat × Nat × String))
    (isig : List (Option Nat × String)) (ip : String) : Option (Sum Nat Nat) :=
  if ipInSubnet subnet ip then
    ((dsig.find? (fun s => s.2.1 == nid && s.2.2 == ip)).bind (fun s => s.1)).map Sum.inl
  else
    ((isig.find? (fun s => s.2 == ip)).bind (fun s => s.1)).map Sum.inr

/-- Inventory state the Reconciler works on: the device, address and port
tables plus the next fresh row id. -/
structure Inv where
  devices : List Device
  ipRows : List IPAddress
  ports : List Port
  nextId : Nat
deriving DecidableEq

/-- Modelled from the spec: one device-phase reconciliation step; a probe
whose address lies in the scanned subnet upserts a Device keyed by
(network_id, ip_address), any other probe leaves the device table alone. -/
def devStep (nid : Nat) (subnet : String) (now : Nat) (st : List Device × Nat)
    (p : Probe) : List Device × Nat :=
  if ipInSubnet subnet p.ip then
    (upsert deviceKey (nid, p.ip) (mergeDevice now p) (freshDevice st.2 nid now p) st.1,
     if (nid, p.ip) ∈ st.1.map deviceKey then st.2 else st.2 + 1)
  else st

/-- Device-phase fold over the probe sequence. -/
def devRun (nid : Nat) (subnet : String) (now : Nat) :
    List Device × Nat → List Probe → List Device × Nat
  | st, [] => st
  | st, p :: ps => devRun nid subnet now (devStep nid subnet now st p) ps

/-- Modelled from the spec: one address-phase reconciliation step; a probe
whose address lies outside the scanned subnet upserts an IPAddress row
keyed by the address. -/
def ipStep (now : Nat) (subnet : String) (st : List IPAddress × Nat)
    (p : Probe) : List IPAddress × Nat :=
  if ipInSubnet subnet p.ip then st
  else
    (upsert ipKey p.ip (mergeIPRow now) (freshIPRow st.2 now p) st.1,
     if p.ip ∈ st.1.map ipKey then st.2 else st.2 + 1)

/-- Address-phase fold over the probe sequence. -/
def ipRun (now : Nat) (subnet : String) :
    List IPAddress × Nat → List Probe → List IPAddress × Nat
  | st, [] => st
  | st, p :: ps => ipRun now subnet (ipStep now subnet st p) ps

/-- Modelled from the spec: one port-phase reconciliation step; the job's
parent is resolved against the reconciled tables, an unresolvable parent
skips the job, otherwise the Port keyed by (parent, number, protocol) is
upserted. -/
def portStep (nid : Nat) (subnet : String) (now : Nat)
    (dsig : List (Option Nat × Nat × String)) (isig : List (Option Nat × String))
    (st : List Port × Nat) (j : String × ProbePort) : List Port × Nat :=
  match ownerOf nid subnet dsig isig j.1 with
  | none => st
  | some o =>
    (upsert portKey (portKeyOf o j.2) (mergePort now j.2) (freshPort st.2 o j.2 now) st.1,
     if portKeyOf o j.2 ∈ st.1.map portKey then st.2 else st.2 + 1)

/-- Port-phase fold over the canonical port jobs. -/
def portRun (nid : Nat) (subnet : String) (now : Nat)
    (dsig : List (Option Nat × Nat × String)) (isig : List (Option Nat × String)) :
    List Port × Nat → List (String × ProbePort) → List Port × Nat
  | st, [] => st
  | st, j :: js => portRun nid subnet now dsig isig (portStep nid subnet now dsig isig st j) js

/-- Modelled from the spec: full reconciliation of a probe sequence into
the inventory: device phase, then address phase, then port phase against
the reconciled tables. -/
def reconcile (nid : Nat) (subnet : String) (now : Nat) (inv : Inv)
    (ps : List Probe) : Inv :=
  let dst := devRun nid subnet now (inv.devices, inv.nextId) ps
  let ist := ipRun now subnet (inv.ipRows, dst.2) ps
  let pst := portRun nid subnet now (dst.1.map deviceSig) (ist.1.map ipSig)
    (inv.ports, ist.2) (portJobs ps)
  { devices := dst.1, ipRows := ist.1, ports := pst.1, nextId := pst.2 }

/-- Modelled from the spec: the Aggregation Reporter's devices_found, the
count of Devices created-or-updated in the scan: the number of distinct
(network_id, ip_address) pairs among in-subnet probes. -/
def devicesFoundCount (nid : Nat) (subnet : String) (ps : List Probe) : Nat :=
  ((ps.filter (fun p => ipInSubnet subnet p.ip)).map
    (fun p => ((nid, p.ip) : Nat × String))).toFinset.card

/-- Modelled from the spec: the Aggregation Reporter's ports_found, the
count of Ports created-or-updated in the scan: the number of distinct
(host, number, protocol) triples among the valid port jobs. -/
def portsFoundCount (ps : List Probe) : Nat :=
  ((portJobs ps).map (fun j => (j.1, j.2.number, j.2.protocol))).toFinset.card

/-- Modelled from the spec: a complete scan run over an already-normalized
probe sequence: the inventory is reconciled; the scan record transitions
running-to-completed with the Reporter's counts, the rejected-record
summary in error_message, completed_at and the duration. -/
def runScan (subnet : String) (scan : NetworkScan) (inv : Inv) (ps : List Probe)
    (now : Nat) : Inv × NetworkScan :=
  (reconcile scan.network_id subnet now inv ps,
   { scan with
     status := "completed"
     devices_found := devicesFoundCount scan.network_id subnet ps
     ports_found := portsFoundCount ps
     error_message := String.intercalate "; " ((invalidJobs ps).map describeRejected)
     completed_at := some now
     scan_duration := some (now - scan.started_at) })

/-- Device keys observed by a scan: the (network_id, ip_address) pair of
every probe whose address lies in the scanned subnet, in probe order. -/
def inNetKeys (nid : Nat) (subnet : String) (ps : List Probe) : List (Nat × String) :=
  (ps.filter (fun p => ipInSubnet subnet p.ip)).map (fun p => ((nid, p.ip) : Nat × String))

/-- Address keys observed by a scan: the address of every probe lying
outside the scanned subnet, in probe order. -/
def outIpKeys (subnet : String) (ps : List Probe) : List String :=
  (ps.filter (fun p => !ipInSubnet subnet p.ip)).map (fun p => p.ip)

/-- Port keys a job list reconciles under, given fixed lookup tables; jobs
whose parent does not resolve are dropped. -/
def jobKeys (nid : Nat) (subnet : String) (dsig : List (Option Nat × Nat × String))
    (isig : List (Option Nat × String)) (js : List (String × ProbePort)) :
    List (Option Nat × Option Nat × Nat × String) :=
  js.filterMap (fun j => (ownerOf nid subnet dsig isig j.1).map (fun o => portKeyOf o j.2))

/-- Port value with neither parent id set; every per-field Field(...)
constraint of models.py is satisfied. -/
def portBothNone : Port :=
  { id := none, port_number := 80, protocol := "tcp", state := "open",
    service := "", version := "", banner := "", device_id := none,
    ip_address_id := none, last_scanned := 0, created_at := 0 }

/-- PortCreate value with neither parent id set. -/
def portCreateBothNone : PortCreate :=
  { port_number := 80, protocol := "tcp", device_id := none, ip_address_id := none }

/-- NetworkCreate value whose fields all satisfy the declared max_length
bounds while the subnet string is not CIDR notation at all. -/
def badNetworkCreate : NetworkCreate :=
  { name := "lan", subnet := "not-a-cidr", gateway_ip := "10.0.0.1",
    description := "" }

/-- Empty inventory. -/
def emptyInv : Inv :=
  { devices := [], ipRows := [], ports := [], nextId := 0 }

/-- Valid ssh port observation used by the spec's scenarios. -/
def sshPort : ProbePort :=
  { number := 22, protocol := "tcp", state := "open", service := "ssh", banner := "" }

/-- Malformed port observation from the spec's scenario: port_number 99999
is outside [1, 65535]. -/
def badPort : ProbePort :=
  { number := 99999, protocol := "tcp", state := "open", service := "", banner := "" }

/-- Probe of host 10.0.0.5 carrying one valid and one malformed port
result. -/
def exProbe : Probe :=
  { ip := "10.0.0.5", mac := "aa:bb:cc:dd:ee:ff", hostname := "host5",
    ports := [sshPort, badPort] }

/-- The probe sequence of the scenario runs. -/
def exProbes : List Probe := [exProbe]

/-- Completed scan record used to exercise terminal-state immutability. -/
def exDoneScan : NetworkScan :=
  { mkNetworkScan 3 10 with status := "completed", completed_at := some 40 }

/-- Nontrivial scan update used against the terminal scan. -/
def exScanUpd : NetworkScanUpdate :=
  { status := some "running", devices_found := some 9, ports_found := some 9,
    scan_duration := some 7, error_message := some "boom", completed_at := some 99 }

/-- Running scan on network 5 (id 1). -/
def exRunningScan : NetworkScan :=
  { mkNetworkScan 5 20 with id := some 1, status := "running" }

/-- Pending scan on network 5 (id 2), the dispatch target. -/
def exPendingScan : NetworkScan :=
  { mkNetworkScan 5 30 with id := some 2 }

/-- Scan table holding the running scan and the pending target. -/
def exScanDb : List NetworkScan := [exRunningScan, exPendingScan]

/-- Network record used by the update-merge witnesses. -/
def exNetwork : Network :=
  { id := some 1, name := "lan", subnet := "10.0.0.0/24",
    gateway_ip := "10.0.0.1", description := "", is_active := true,
    created_at := 0, updated_at := 0 }

/-- NetworkUpdate carrying one non-empty field. -/
def exNetUpd : NetworkUpdate :=
  { name := some "edge", subnet := none, gateway_ip := none,
    description := none, is_active := none }

/-- Membership in an insertIfNew trace. -/
theorem mem_insertIfNew {κ : Type} [DecidableEq κ] {ks : List κ} {k k' : κ}
    (h : k' ∈ ks ∨ k' = k) : k' ∈ insertIfNew ks k := by
  unfold insertIfNew
  split
  · rcases h with h | rfl
    · exact h
    · assumption
  · rcases h with h | rfl
    · exact List.mem_append.mpr (Or.inl h)
    · exact List.mem_append.mpr (Or.inr (List.mem_singleton.mpr rfl))

/-- insertIfNew adds exactly the inserted key to the key set. -/
theorem toFinset_insertIfNew {κ : Type} [DecidableEq κ] (ks : List κ) (k : κ) :
    (insertIfNew ks k).toFinset = insert k ks.toFinset := by
  unfold insertIfNew
  split
  · next h => rw [Finset.insert_eq_self.mpr (List.mem_toFinset.mpr h)]
  · rw [List.toFinset_append]
    simp [Finset.union_comm, Finset.insert_eq]

/-- insertIfNew preserves freedom from duplicates. -/
theorem nodup_insertIfNew {κ : Type} [DecidableEq κ] {ks : List κ} (k : κ)
    (h : ks.Nodup) : (insertIfNew ks k).Nodup := by
  unfold insertIfNew
  split
  · exact h
  · next hk =>
    rw [List.nodup_append]
    refine ⟨h, List.nodup_singleton k, ?_⟩
    intro a ha hb
    rw [List.mem_singleton] at hb
    subst hb
    exact hk ha

/-- Key set of a fold of insertIfNew: the union of start and inserted. -/
theorem foldl_insertIfNew_toFinset {κ : Type} [DecidableEq κ] (ls : List κ)
    (ks : List κ) :
    (ls.foldl insertIfNew ks).toFinset = ks.toFinset ∪ ls.toFinset := by
  induction ls generalizing ks with
  | nil => simp
  | cons a ls ih =>
    rw [List.foldl_cons, ih, toFinset_insertIfNew]
    simp [Finset.insert_union, Finset.union_insert]

/-- Folds of insertIfNew keep the trace free of duplicates. -/
theorem foldl_insertIfNew_nodup {κ : Type} [DecidableEq κ] (ls : List κ)
    {ks : List κ} (h : ks.Nodup) : (ls.foldl insertIfNew ks).Nodup := by
  induction ls generalizing ks with
  | nil => exact h
  | cons a ls ih => exact ih (nodup_insertIfNew a h)

/-- From an empty start the insertIfNew trace has one entry per distinct
inserted key. -/
theorem foldl_insertIfNew_length_nil {κ : Type} [DecidableEq κ] (ls : List κ) :
    (ls.foldl insertIfNew ([] : List κ)).length = ls.toFinset.card := by
  rw [← List.toFinset_card_of_nodup (foldl_insertIfNew_nodup ls List.nodup_nil)]
  rw [foldl_insertIfNew_toFinset]
  simp

/-- Inserting only already-present keys leaves the trace unchanged. -/
theorem foldl_insertIfNew_of_subset {κ : Type} [DecidableEq κ] {ls ks : List κ}
    (h : ∀ k ∈ ls, k ∈ ks) : ls.foldl insertIfNew ks = ks := by
  induction ls with
  | nil => rfl
  | cons a ls ih =>
    rw [List.foldl_cons]
    have ha : insertIfNew ks a = ks := by
      unfold insertIfNew
      rw [if_pos (h a (List.mem_cons_self a ls))]
    rw [ha]
    exact ih fun k hk => h k (List.mem_cons_of_mem a hk)

/-- Membership in a fold of insertIfNew, from either side. -/
theorem mem_foldl_insertIfNew {κ : Type} [DecidableEq κ] {ls ks : List κ} {k : κ}
    (h : k ∈ ks ∨ k ∈ ls) : k ∈ ls.foldl insertIfNew ks := by
  rw [← List.mem_toFinset, foldl_insertIfNew_toFinset, Finset.mem_union]
  rcases h with h | h
  · exact Or.inl (List.mem_toFinset.mpr h)
  · exact Or.inr (List.mem_toFinset.mpr h)

/-- An upsert that hits an existing key changes no observation that the
update function preserves. -/
theorem upsert_map_of_mem {α κ β : Type} [DecidableEq κ] (key : α → κ) (k : κ)
    (upd : α → α) (fresh : α) (xs : List α) (f : α → β)
    (hk : k ∈ xs.map key) (hupd : ∀ x ∈ xs, f (upd x) = f x) :
    (upsert key k upd fresh xs).map f = xs.map f := by
  unfold upsert
  rw [if_pos hk, List.map_map]
  refine List.map_congr_left ?_
  intro a ha
  by_cases h : key a = k
  · simp only [Function.comp, if_pos h]
    exact hupd a ha
  · simp only [Function.comp, if_neg h]

/-- Key trace of an upsert: insertIfNew of the key, provided the update
function is key-preserving and the fresh row carries the key. -/
theorem upsert_map_key {α κ : Type} [DecidableEq κ] (key : α → κ) (k : κ)
    (upd : α → α) (fresh : α) (xs : List α)
    (hupd : ∀ x ∈ xs, key (upd x) = key x) (hfresh : key fresh = k) :
    (upsert key k upd fresh xs).map key = insertIfNew (xs.map key) k := by
  unfold upsert insertIfNew
  by_cases hk : k ∈ xs.map key
  · rw [if_pos hk, if_pos hk, List.map_map]
    refine List.map_congr_left ?_
    intro a ha
    by_cases h : key a = k
    · simp only [Function.comp, if_pos h]
      exact hupd a ha
    · simp only [Function.comp, if_neg h]
  · rw [if_neg hk, if_neg hk, List.map_append]
    simp [hfresh]

/-- An upsert that hits an existing key does not change the row count. -/
theorem upsert_length_of_mem {α κ : Type} [DecidableEq κ] (key : α → κ) (k : κ)
    (upd : α → α) (fresh : α) (xs : List α) (hk : k ∈ xs.map key) :
    (upsert key k upd fresh xs).length = xs.length := by
  unfold upsert
  rw [if_pos hk, List.length_map]

/-- A property holding on every row, preserved by the update function and
satisfied by the fresh row, holds on every row after an upsert. -/
theorem upsert_forall {α κ : Type} [DecidableEq κ] {key : α → κ} {k : κ}
    {upd : α → α} {fresh : α} {xs : List α} {P : α → Prop}
    (hxs : ∀ x ∈ xs, P x) (hupd : ∀ x ∈ xs, P x → P (upd x)) (hfresh : P fresh) :
    ∀ x ∈ upsert key k upd fresh xs, P x := by
  intro x hx
  unfold upsert at hx
  split at hx
  · rw [List.mem_map] at hx
    obtain ⟨a, ha, rfl⟩ := hx
    by_cases h : key a = k
    · rw [if_pos h]
      exact hupd a ha (hxs a ha)
    · rw [if_neg h]
      exact hxs a ha
  · rw [List.mem_append] at hx
    rcases hx with hx | hx
    · exact hxs x hx
    · rw [List.mem_singleton] at hx
      subst hx
      exact hfresh

/-- inNetKeys of a cons whose head is in the subnet. -/
theorem inNetKeys_cons_pos {nid : Nat} {subnet : String} {p : Probe}
    {ps : List Probe} (hp : ipInSubnet subnet p.ip = true) :
    inNetKeys nid subnet (p :: ps) = (nid, p.ip) :: inNetKeys nid subnet ps := by
  simp [inNetKeys, List.filter_cons, hp]

/-- inNetKeys of a cons whose head is outside the subnet. -/
theorem inNetKeys_cons_neg {nid : Nat} {subnet : String} {p : Probe}
    {ps : List Probe} (hp : ¬ipInSubnet subnet p.ip = true) :
    inNetKeys nid subnet (p :: ps) = inNetKeys nid subnet ps := by
  simp [inNetKeys, List.filter_cons, hp]

/-- outIpKeys of a cons whose head is in the subnet. -/
theorem outIpKeys_cons_pos {subnet : String} {p : Probe} {ps : List Probe}
    (hp : ipInSubnet subnet p.ip = true) :
    outIpKeys subnet (p :: ps) = outIpKeys subnet ps := by
  simp [outIpKeys, List.filter_cons, hp]

/-- outIpKeys of a cons whose head is outside the subnet. -/
theorem outIpKeys_cons_neg {subnet : String} {p : Probe} {ps : List Probe}
    (hp : ¬ipInSubnet subnet p.ip = true) :
    outIpKeys subnet (p :: ps) = p.ip :: outIpKeys subnet ps := by
  simp [outIpKeys, List.filter_cons, hp]

/-- jobKeys of a cons whose head's parent does not resolve. -/
theorem jobKeys_cons_none {nid : Nat} {subnet : String}
    {dsig : List (Option Nat × Nat × String)} {isig : List (Option Nat × String)}
    {j : String × ProbePort} {js : List (String × ProbePort)}
    (howner : ownerOf nid subnet dsig isig j.1 = none) :
    jobKeys nid subnet dsig isig (j :: js) = jobKeys nid subnet dsig isig js := by
  simp [jobKeys, List.filterMap_cons, howner]

/-- jobKeys of a cons whose head's parent resolves. -/
theorem jobKeys_cons_some {nid : Nat} {subnet : String}
    {dsig : List (Option Nat × Nat × String)} {isig : List (Option Nat × String)}
    {j : String × ProbePort} {js : List (String × ProbePort)} {o : Sum Nat Nat}
    (howner : ownerOf nid subnet dsig isig j.1 = some o) :
    jobKeys nid subnet dsig isig (j :: js) =
      portKeyOf o j.2 :: jobKeys nid subnet dsig isig js := by
  simp [jobKeys, List.filterMap_cons, howner]

/-- Key trace of the device phase: the insertIfNew fold of the observed
in-subnet keys over the initial device keys. -/
theorem devRun_map_key (nid : Nat) (subnet : String) (now : Nat) (ds : List Device)
    (n : Nat) (ps : List Probe) :
    (devRun nid subnet now (ds, n) ps).1.map deviceKey =
      (inNetKeys nid subnet ps).foldl insertIfNew (ds.map deviceKey) := by
  induction ps generalizing ds n with
  | nil => rfl
  | cons p ps ih =>
    rw [devRun]
    unfold devStep
    by_cases hp : ipInSubnet subnet p.ip = true
    · rw [if_pos hp, ih]
      rw [upsert_map_key deviceKey (nid, p.ip) (mergeDevice now p)
        (freshDevice n nid now p) ds (fun x _ => rfl) rfl]
      rw [inNetKeys_cons_pos hp, List.foldl_cons]
    · rw [if_neg hp, ih, inNetKeys_cons_neg hp]

/-- When every observed in-subnet key already has a device row, the device
phase changes no lookup signature (and in particular no row count and no
key). -/
theorem devRun_map_sig (nid : Nat) (subnet : String) (now : Nat) (ds : List Device)
    (n : Nat) (ps : List Probe)
    (h : ∀ k ∈ inNetKeys nid subnet ps, k ∈ ds.map deviceKey) :
    (devRun nid subnet now (ds, n) ps).1.map deviceSig = ds.map deviceSig := by
  induction ps generalizing ds n with
  | nil => rfl
  | cons p ps ih =>
    rw [devRun]
    unfold devStep
    by_cases hp : ipInSubnet subnet p.ip = true
    · rw [if_pos hp]
      rw [inNetKeys_cons_pos hp] at h
      have hmem : ((nid, p.ip) : Nat × String) ∈ ds.map deviceKey :=
        h (nid, p.ip) (List.mem_cons_self _ _)
      have hkeys : (upsert deviceKey (nid, p.ip) (mergeDevice now p)
          (freshDevice n nid now p) ds).map deviceKey = ds.map deviceKey :=
        upsert_map_of_mem deviceKey (nid, p.ip) (mergeDevice now p)
          (freshDevice n nid now p) ds deviceKey hmem (fun x _ => rfl)
      have hsig : (upsert deviceKey (nid, p.ip) (mergeDevice now p)
          (freshDevice n nid now p) ds).map deviceSig = ds.map deviceSig :=
        upsert_map_of_mem deviceKey (nid, p.ip) (mergeDevice now p)
          (freshDevice n nid now p) ds deviceSig hmem (fun x _ => rfl)
      rw [ih _ _ ?_, hsig]
      intro k hk
      rw [hkeys]
      exact h k (List.mem_cons_of_mem _ hk)
    · rw [if_neg hp]
      rw [inNetKeys_cons_neg hp] at h
      exact ih _ _ h

/-- Every observed in-subnet key has a device row after the device phase. -/
theorem devRun_key_complete (nid : Nat) (subnet : String) (now : Nat)
    (ds : List Device) (n : Nat) (ps : List Probe) :
    ∀ k ∈ inNetKeys nid subnet ps,
      k ∈ (devRun nid subnet now (ds, n) ps).1.map deviceKey := by
  intro k hk
  rw [devRun_map_key]
  exact mem_foldl_insertIfNew (Or.inr hk)

/-- Key trace of the address phase: the insertIfNew fold of the observed
outside-subnet addresses over the initial address keys. -/
theorem ipRun_map_key (now : Nat) (subnet : String) (irs : List IPAddress)
    (n : Nat) (ps : List Probe) :
    (ipRun now subnet (irs, n) ps).1.map ipKey =
      (outIpKeys subnet ps).foldl insertIfNew (irs.map ipKey) := by
  induction ps generalizing irs n with
  | nil => rfl
  | cons p ps ih =>
    rw [ipRun]
    unfold ipStep
    by_cases hp : ipInSubnet subnet p.ip = true
    · rw [if_pos hp, ih, outIpKeys_cons_pos hp]
    · rw [if_neg hp, ih]
      rw [upsert_map_key ipKey p.ip (mergeIPRow now) (freshIPRow n now p) irs
        (fun x _ => rfl) rfl]
      rw [outIpKeys_cons_neg hp, List.foldl_cons]

/-- When every observed outside-subnet address already has a row, the
address phase changes no lookup signature. -/
theorem ipRun_map_sig (now : Nat) (subnet : String) (irs : List IPAddress)
    (n : Nat) (ps : List Probe)
    (h : ∀ k ∈ outIpKeys subnet ps, k ∈ irs.map ipKey) :
    (ipRun now subnet (irs, n) ps).1.map ipSig = irs.map ipSig := by
  induction ps generalizing irs n with
  | nil => rfl
  | cons p ps ih =>
    rw [ipRun]
    unfold ipStep
    by_cases hp : ipInSubnet subnet p.ip = true
    · rw [if_pos hp]
      rw [outIpKeys_cons_pos hp] at h
      exact ih _ _ h
    · rw [if_neg hp]
      rw [outIpKeys_cons_neg hp] at h
      have hmem : p.ip ∈ irs.map ipKey := h p.ip (List.mem_cons_self _ _)
      have hkeys : (upsert ipKey p.ip (mergeIPRow now) (freshIPRow n now p)
          irs).map ipKey = irs.map ipKey :=
        upsert_map_of_mem ipKey p.ip (mergeIPRow now) (freshIPRow n now p)
          irs ipKey hmem (fun x _ => rfl)
      have hsig : (upsert ipKey p.ip (mergeIPRow now) (freshIPRow n now p)
          irs).map ipSig = irs.map ipSig :=
        upsert_map_of_mem ipKey p.ip (mergeIPRow now) (freshIPRow n now p)
          irs ipSig hmem (fun x _ => rfl)
      rw [ih _ _ ?_, hsig]
      intro k hk
      rw [hkeys]
      exact h k (List.mem_cons_of_mem _ hk)

/-- Every observed outside-subnet address has a row after the address
phase. -/
theorem ipRun_key_complete (now : Nat) (subnet : String) (irs : List IPAddress)
    (n : Nat) (ps : List Probe) :
    ∀ k ∈ outIpKeys subnet ps,
      k ∈ (ipRun now subnet (irs, n) ps).1.map ipKey := by
  intro k hk
  rw [ipRun_map_key]
  exact mem_foldl_insertIfNew (Or.inr hk)

/-- Key trace of the port phase: the insertIfNew fold of the resolved job
keys over the initial port keys. -/
theorem portRun_map_key (nid : Nat) (subnet : String) (now : Nat)
    (dsig : List (Option Nat × Nat × String)) (isig : List (Option Nat × String))
    (prts : List Port) (n : Nat) (js : List (String × ProbePort)) :
    (portRun nid subnet now dsig isig (prts, n) js).1.map portKey =
      (jobKeys nid subnet dsig isig js).foldl insertIfNew (prts.map portKey) := by
  induction js generalizing prts n with
  | nil => rfl
  | cons j js ih =>
    rw [portRun]
    unfold portStep
    cases howner : ownerOf nid subnet dsig isig j.1 with
    | none =>
      rw [ih, jobKeys_cons_none howner]
    | some o =>
      rw [ih]
      rw [upsert_map_key portKey (portKeyOf o j.2) (mergePort now j.2)
        (freshPort n o j.2 now) prts (fun x _ => rfl) rfl]
      rw [jobKeys_cons_some howner, List.foldl_cons]

/-- When every resolved job key already has a port row, the port phase
changes neither the key trace nor the row count. -/
theorem portRun_map_key_of_complete (nid : Nat) (subnet : String) (now : Nat)
    (dsig : List (Option Nat × Nat × String)) (isig : List (Option Nat × String))
    (prts : List Port) (n : Nat) (js : List (String × ProbePort))
    (h : ∀ k ∈ jobKeys nid subnet dsig isig js, k ∈ prts.map portKey) :
    (portRun nid subnet now dsig isig (prts, n) js).1.map portKey = prts.map portKey := by
  rw [portRun_map_key]
  exact foldl_insertIfNew_of_subset h

/-- Every resolved job key has a port row after the port phase. -/
theorem portRun_key_complete (nid : Nat) (subnet : String) (now : Nat)
    (dsig : List (Option Nat × Nat × String)) (isig : List (Option Nat × String))
    (prts : List Port) (n : Nat) (js : List (String × ProbePort)) :
    ∀ k ∈ jobKeys nid subnet dsig isig js,
      k ∈ (portRun nid subnet now dsig isig (prts, n) js).1.map portKey := by
  intro k hk
  rw [portRun_map_key]
  exact mem_foldl_insertIfNew (Or.inr hk)

/-- Two lists with the same image under a map have the same length. -/
theorem length_eq_of_map_eq {α β : Type} {f : α → β} {xs ys : List α}
    (h : xs.map f = ys.map f) : xs.length = ys.length := by
  rw [← List.length_map xs f, h, List.length_map]

/-- Port rows created by the Reconciler carry exactly one parent id. -/
theorem freshPort_exactlyOneParent (fid : Nat) (o : Sum Nat Nat) (q : ProbePort)
    (now : Nat) : (freshPort fid o q now).exactlyOneParent := by
  cases o with
  | inl i => exact Or.inl ⟨by simp [freshPort, parentPair], rfl⟩
  | inr i => exact Or.inr ⟨rfl, by simp [freshPort, parentPair]⟩

/-- The port phase establishes and preserves the one-parent invariant. -/
theorem portRun_exactlyOneParent (nid : Nat) (subnet : String) (now : Nat)
    (dsig : List (Option Nat × Nat × String)) (isig : List (Option Nat × String))
    (prts : List Port) (n : Nat) (js : List (String × ProbePort))
    (h : ∀ r ∈ prts, r.exactlyOneParent) :
    ∀ r ∈ (portRun nid subnet now dsig isig (prts, n) js).1, r.exactlyOneParent := by
  induction js generalizing prts n with
  | nil => exact h
  | cons j js ih =>
    rw [portRun]
    unfold portStep
    cases howner : ownerOf nid subnet dsig isig j.1 with
    | none => exact ih _ _ h
    | some o =>
      refine ih _ _ ?_
      exact upsert_forall h (fun x _ hx => hx)
        (freshPort_exactlyOneParent n o j.2 now)

/-- A malformed port result of a probe in the sequence appears among the
rejected jobs. -/
theorem mem_invalidJobs {p : Probe} {q : ProbePort} {ps : List Probe}
    (hp : p ∈ ps) (hq : q ∈ p.ports) (hbad : validProbePort q = false) :
    (p.ip, q) ∈ invalidJobs ps := by
  induction ps with
  | nil => cases hp
  | cons a ps ih =>
    rw [invalidJobs, List.mem_append]
    rcases List.mem_cons.mp hp with rfl | hp
    · refine Or.inl (List.mem_map.mpr ⟨q, ?_, rfl⟩)
      rw [List.mem_filter]
      exact ⟨hq, by rw [hbad]; rfl⟩
    · exact Or.inr (ih hp)

/-- Every port result among the canonical jobs passed ingestor
validation. -/
theorem valid_of_mem_portJobs {ip0 : String} {q : ProbePort} {ps : List Probe}
    (h : (ip0, q) ∈ portJobs ps) : validProbePort q = true := by
  induction ps with
  | nil => cases h
  | cons a ps ih =>
    rw [portJobs, List.mem_append] at h
    rcases h with h | h
    · obtain ⟨q', hq', heq⟩ := List.mem_map.mp h
      obtain ⟨-, hval⟩ := List.mem_filter.mp hq'
      injection heq with h1 h2
      subst h2
      exact hval
    · exact ih h

/-- C9: a NetworkScan constructed from a network_id alone carries the
declared column defaults: status pending, scan_type ping_sweep, zero
counts, empty error_message and scan_options, and unset scan_duration and
completed_at. -/
theorem mkNetworkScan_defaults (nid now : Nat) :
    (mkNetworkScan nid now).status = "pending" ∧
      (mkNetworkScan nid now).scan_type = "ping_sweep" ∧
      (mkNetworkScan nid now).devices_found = 0 ∧
      (mkNetworkScan nid now).ports_found = 0 ∧
      (mkNetworkScan nid now).error_message = "" ∧
      (mkNetworkScan nid now).scan_options = [] ∧
      (mkNetworkScan nid now).scan_duration = none ∧
      (mkNetworkScan nid now).completed_at = none :=
  ⟨rfl, rfl, rfl, rfl, rfl, rfl, rfl, rfl⟩

/-- C10: the DeviceUpdate DTO declares no ip_address and no network_id
field, so applying any DeviceUpdate leaves the device's identifying
(network_id, ip_address) pair unchanged. -/
theorem deviceUpdate_preserves_identity (d : Device) (u : DeviceUpdate) :
    (applyDeviceUpdate d u).ip_address = d.ip_address ∧
      (applyDeviceUpdate d u).network_id = d.network_id :=
  ⟨rfl, rfl⟩

/-- C2: once a scan is terminal (completed or failed), applying any update
leaves the record unchanged. -/
theorem terminal_scan_update_unchanged (s : NetworkScan) (u : NetworkScanUpdate)
    (h : s.isTerminal) : applyScanUpdate s u = s := by
  unfold applyScanUpdate
  rw [if_pos h]

/-- C2 witness: a completed scan is untouched by a fully-populated
update. -/
theorem terminal_scan_update_unchanged_witness :
    exDoneScan.isTerminal ∧ applyScanUpdate exDoneScan exScanUpd = exDoneScan :=
  ⟨Or.inl rfl, terminal_scan_update_unchanged exDoneScan exScanUpd (Or.inl rfl)⟩

/-- C1 counterexample: a Port (and a PortCreate) with neither device_id nor
ip_address_id set satisfies every constraint the schema declares, so the
schema does not enforce the one-parent invariant. -/
theorem schema_admits_parentless_port :
    portBothNone.schemaValid ∧ ¬portBothNone.exactlyOneParent ∧
      portCreateBothNone.schemaValid :=
  ⟨by decide, by decide, by decide⟩

/-- C1 (amended): every Port row in the inventory left by a scan run has
exactly one of device_id and ip_address_id set, provided the pre-scan port
rows already satisfy the invariant; the schema alone does not enforce
this. -/
theorem scan_ports_have_exactly_one_parent (subnet : String) (scan : NetworkScan)
    (inv : Inv) (ps : List Probe) (now : Nat)
    (h : ∀ r ∈ inv.ports, r.exactlyOneParent) :
    ∀ r ∈ (runScan subnet scan inv ps now).1.ports, r.exactlyOneParent := by
  intro r hr
  exact portRun_exactlyOneParent scan.network_id subnet now _ _ inv.ports _
    (portJobs ps) h r hr

/-- C1 witness: the scenario scan run from an empty inventory yields only
ports with exactly one parent. -/
theorem scan_ports_have_exactly_one_parent_witness :
    (∀ r ∈ emptyInv.ports, r.exactlyOneParent) ∧
      ∀ r ∈ (runScan "10.0.0.0/24" (mkNetworkScan 7 50) emptyInv exProbes 100).1.ports,
        r.exactlyOneParent :=
  ⟨by decide,
    scan_ports_have_exactly_one_parent "10.0.0.0/24" (mkNetworkScan 7 50)
      emptyInv exProbes 100 (by decide)⟩

/-- C6 counterexample: a NetworkCreate whose subnet is not CIDR notation at
all passes every constraint the schema declares, so create validation does
not establish the CIDR invariant. -/
theorem schema_admits_invalid_cidr :
    badNetworkCreate.schemaValid ∧ isValidCIDR badNetworkCreate.subnet = false :=
  ⟨by decide, by decide⟩

/-- C6 (amended): Network create validation and the Network record schema
enforce only the declared length bounds on subnet and gateway_ip; CIDR
validity and gateway-within-subnet are not checked. -/
theorem network_schema_bounds_only (c : NetworkCreate) (n : Network)
    (hc : c.schemaValid) (hn : n.schemaValid) :
    c.subnet.length ≤ 18 ∧ c.gateway_ip.length ≤ 15 ∧
      n.subnet.length ≤ 18 ∧ n.gateway_ip.length ≤ 15 :=
  ⟨hc.2.1, hc.2.2.1, hn.2.1, hn.2.2.1⟩

/-- C6 witness: the bounds hold on concrete schema-valid records. -/
theorem network_schema_bounds_only_witness :
    badNetworkCreate.schemaValid ∧ exNetwork.schemaValid ∧
      (badNetworkCreate.subnet.length ≤ 18 ∧
        badNetworkCreate.gateway_ip.length ≤ 15 ∧
        exNetwork.subnet.length ≤ 18 ∧ exNetwork.gateway_ip.length ≤ 15) :=
  ⟨by decide, by decide,
    network_schema_bounds_only badNetworkCreate exNetwork (by decide) (by decide)⟩

/-- C4: dispatching a pending scan whose network already has a running scan
is rejected with a Conflict and leaves the scan table unchanged. -/
theorem start_scan_conflict (db : List NetworkScan) (tid now : Nat)
    (t s : NetworkScan) (hfind : db.find? (fun x => x.id == some tid) = some t)
    (hpend : t.status = "pending") (hs : s ∈ db) (hrun : s.status = "running")
    (hnet : s.network_id = t.network_id) :
    startScan db tid now = (db, some ScanError.conflict) := by
  simp only [startScan, hfind]
  rw [if_neg (by simp [hpend])]
  rw [if_pos (List.any_eq_true.mpr ⟨s, hs, by simp [hnet, hrun]⟩)]

/-- C4 witness: dispatching the pending scan (id 2) on network 5 while scan
id 1 is running on network 5 is rejected and the table is untouched. -/
theorem start_scan_conflict_witness :
    startScan exScanDb 2 60 = (exScanDb, some ScanError.conflict) :=
  start_scan_conflict exScanDb 2 60 exPendingScan exRunningScan (by decide)
    (by decide) (by decide) (by decide) (by decide)

/-- C7: for every record and every partial update DTO, field by field:
a field left None in the DTO is unchanged on the target record, a
non-empty incoming field overwrites, and an empty incoming string
preserves the existing value (for NetworkScan the changing directions are
stated for non-terminal scans, where updates apply at all). -/
theorem partial_update_frame :
    (∀ (n : Network) (u : NetworkUpdate),
      (u.name = none → (applyNetworkUpdate n u).name = n.name) ∧
      (u.subnet = none → (applyNetworkUpdate n u).subnet = n.subnet) ∧
      (u.gateway_ip = none → (applyNetworkUpdate n u).gateway_ip = n.gateway_ip) ∧
      (u.description = none → (applyNetworkUpdate n u).description = n.description) ∧
      (u.is_active = none → (applyNetworkUpdate n u).is_active = n.is_active) ∧
      (∀ v, u.name = some v → v ≠ "" → (applyNetworkUpdate n u).name = v) ∧
      (u.name = some "" → (applyNetworkUpdate n u).name = n.name) ∧
      (∀ v, u.subnet = some v → v ≠ "" → (applyNetworkUpdate n u).subnet = v) ∧
      (u.subnet = some "" → (applyNetworkUpdate n u).subnet = n.subnet) ∧
      (∀ v, u.gateway_ip = some v → v ≠ "" →
        (applyNetworkUpdate n u).gateway_ip = v) ∧
      (u.gateway_ip = some "" → (applyNetworkUpdate n u).gateway_ip = n.gateway_ip) ∧
      (∀ v, u.description = some v → v ≠ "" →
        (applyNetworkUpdate n u).description = v) ∧
      (u.description = some "" →
        (applyNetworkUpdate n u).description = n.description) ∧
      (∀ b, u.is_active = some b → (applyNetworkUpdate n u).is_active = b)) ∧
    (∀ (d : Device) (u : DeviceUpdate),
      (u.hostname = none → (applyDeviceUpdate d u).hostname = d.hostname) ∧
      (u.device_type = none → (applyDeviceUpdate d u).device_type = d.device_type) ∧
      (u.manufacturer = none →
        (applyDeviceUpdate d u).manufacturer = d.manufacturer) ∧
      (u.operating_system = none →
        (applyDeviceUpdate d u).operating_system = d.operating_system) ∧
      (u.is_online = none → (applyDeviceUpdate d u).is_online = d.is_online) ∧
      (∀ v, u.hostname = some v → v ≠ "" → (applyDeviceUpdate d u).hostname = v) ∧
      (u.hostname = some "" → (applyDeviceUpdate d u).hostname = d.hostname) ∧
      (∀ v, u.device_type = some v → v ≠ "" →
        (applyDeviceUpdate d u).device_type = v) ∧
      (u.device_type = some "" →
        (applyDeviceUpdate d u).device_type = d.device_type) ∧
      (∀ v, u.manufacturer = some v → v ≠ "" →
        (applyDeviceUpdate d u).manufacturer = v) ∧
      (u.manufacturer = some "" →
        (applyDeviceUpdate d u).manufacturer = d.manufacturer) ∧
      (∀ v, u.operating_system = some v → v ≠ "" →
        (applyDeviceUpdate d u).operating_system = v) ∧
      (u.operating_system = some "" →
        (applyDeviceUpdate d u).operating_system = d.operating_system) ∧
      (∀ b, u.is_online = some b → (applyDeviceUpdate d u).is_online = b)) ∧
    (∀ (a : IPAddress) (u : IPAddressUpdate),
      (u.country = none → (applyIPAddressUpdate a u).country = a.country) ∧
      (u.country_code = none →
        (applyIPAddressUpdate a u).country_code = a.country_code) ∧
      (u.city = none → (applyIPAddressUpdate a u).city = a.city) ∧
      (u.region = none → (applyIPAddressUpdate a u).region = a.region) ∧
      (u.latitude = none → (applyIPAddressUpdate a u).latitude = a.latitude) ∧
      (u.longitude = none → (applyIPAddressUpdate a u).longitude = a.longitude) ∧
      (u.isp = none → (applyIPAddressUpdate a u).isp = a.isp) ∧
      (u.organization = none →
        (applyIPAddressUpdate a u).organization = a.organization) ∧
      (u.is_monitored = none →
        (applyIPAddressUpdate a u).is_monitored = a.is_monitored) ∧
      (u.notes = none → (applyIPAddressUpdate a u).notes = a.notes) ∧
      (∀ v, u.country = some v → v ≠ "" → (applyIPAddressUpdate a u).country = v) ∧
      (u.country = some "" → (applyIPAddressUpdate a u).country = a.country) ∧
      (∀ v, u.country_code = some v → v ≠ "" →
        (applyIPAddressUpdate a u).country_code = v) ∧
      (u.country_code = some "" →
        (applyIPAddressUpdate a u).country_code = a.country_code) ∧
      (∀ v, u.city = some v → v ≠ "" → (applyIPAddressUpdate a u).city = v) ∧
      (u.city = some "" → (applyIPAddressUpdate a u).city = a.city) ∧
      (∀ v, u.region = some v → v ≠ "" → (applyIPAddressUpdate a u).region = v) ∧
      (u.region = some "" → (applyIPAddressUpdate a u).region = a.region) ∧
      (∀ v, u.isp = some v → v ≠ "" → (applyIPAddressUpdate a u).isp = v) ∧
      (u.isp = some "" → (applyIPAddressUpdate a u).isp = a.isp) ∧
      (∀ v, u.organization = some v → v ≠ "" →
        (applyIPAddressUpdate a u).organization = v) ∧
      (u.organization = some "" →
        (applyIPAddressUpdate a u).organization = a.organization) ∧
      (∀ v, u.notes = some v → v ≠ "" → (applyIPAddressUpdate a u).notes = v) ∧
      (u.notes = some "" → (applyIPAddressUpdate a u).notes = a.notes) ∧
      (∀ v, u.latitude = some v → (applyIPAddressUpdate a u).latitude = some v) ∧
      (∀ v, u.longitude = some v → (applyIPAddressUpdate a u).longitude = some v) ∧
      (∀ b, u.is_monitored = some b → (applyIPAddressUpdate a u).is_monitored = b)) ∧
    (∀ (s : NetworkScan) (u : NetworkScanUpdate),
      (u.status = none → (applyScanUpdate s u).status = s.status) ∧
      (u.devices_found = none →
        (applyScanUpdate s u).devices_found = s.devices_found) ∧
      (u.ports_found = none → (applyScanUpdate s u).ports_found = s.ports_found) ∧
      (u.scan_duration = none →
        (applyScanUpdate s u).scan_duration = s.scan_duration) ∧
      (u.error_message = none →
        (applyScanUpdate s u).error_message = s.error_message) ∧
      (u.completed_at = none →
        (applyScanUpdate s u).completed_at = s.completed_at) ∧
      (¬s.isTerminal → ∀ v, u.status = some v → v ≠ "" →
        (applyScanUpdate s u).status = v) ∧
      (¬s.isTerminal → u.status = some "" →
        (applyScanUpdate s u).status = s.status) ∧
      (¬s.isTerminal → ∀ v, u.devices_found = some v →
        (applyScanUpdate s u).devices_found = v) ∧
      (¬s.isTerminal → ∀ v, u.ports_found = some v →
        (applyScanUpdate s u).ports_found = v) ∧
      (¬s.isTerminal → ∀ v, u.scan_duration = some v →
        (applyScanUpdate s u).scan_duration = some v) ∧
      (¬s.isTerminal → ∀ v, u.error_message = some v → v ≠ "" →
        (applyScanUpdate s u).error_message = v) ∧
      (¬s.isTerminal → u.error_message = some "" →
        (applyScanUpdate s u).error_message = s.error_message) ∧
      (¬s.isTerminal → ∀ v, u.completed_at = some v →
        (applyScanUpdate s u).completed_at = some v)) := by
  refine ⟨fun n u => ?_, fun d u => ?_, fun a u => ?_, fun s u => ?_⟩
  · refine ⟨?_, ?_, ?_, ?_, ?_, ?_, ?_, ?_, ?_, ?_, ?_, ?_, ?_, ?_⟩ <;>
      (intros; simp_all [applyNetworkUpdate, mergeStr, mergeVal])
  · refine ⟨?_, ?_, ?_, ?_, ?_, ?_, ?_, ?_, ?_, ?_, ?_, ?_, ?_, ?_⟩ <;>
      (intros; simp_all [applyDeviceUpdate, mergeStr, mergeVal])
  · refine ⟨?_, ?_, ?_, ?_, ?_, ?_, ?_, ?_, ?_, ?_, ?_, ?_, ?_, ?_, ?_, ?_, ?_,
      ?_, ?_, ?_, ?_, ?_, ?_, ?_, ?_, ?_, ?_⟩ <;>
      (intros; simp_all [applyIPAddressUpdate, mergeStr, mergeVal, mergeOptVal])
  · refine ⟨?_, ?_, ?_, ?_, ?_, ?_, ?_, ?_, ?_, ?_, ?_, ?_, ?_, ?_⟩ <;>
      (intros;
        simp_all [applyScanUpdate, mergeStr, mergeVal, mergeOptVal, apply_ite])

/-- C7 witness: a NetworkUpdate carrying only a name leaves a concrete
network's subnet unchanged while overwriting its name. -/
theorem partial_update_frame_witness :
    exNetUpd.subnet = none ∧ exNetUpd.name = some "edge" ∧
      (applyNetworkUpdate exNetwork exNetUpd).subnet = exNetwork.subnet ∧
      (applyNetworkUpdate exNetwork exNetUpd).name = "edge" :=
  ⟨rfl, rfl,
    (partial_update_frame.1 exNetwork exNetUpd).2.1 rfl,
    (partial_update_frame.1 exNetwork exNetUpd).2.2.2.2.2.1 "edge" rfl (by decide)⟩

/-- C5: a malformed probe port result is rejected: it lands among the
rejected jobs reflected in error_message, never among the reconciled jobs,
while the scan still completes and the reported count covers exactly the
remaining valid results. -/
theorem malformed_result_skipped (subnet : String) (scan : NetworkScan)
    (inv : Inv) (ps : List Probe) (now : Nat) (p : Probe) (q : ProbePort)
    (hp : p ∈ ps) (hq : q ∈ p.ports) (hbad : validProbePort q = false) :
    (runScan subnet scan inv ps now).2.status = "completed" ∧
      (p.ip, q) ∈ invalidJobs ps ∧
      (runScan subnet scan inv ps now).2.error_message =
        String.intercalate "; " ((invalidJobs ps).map describeRejected) ∧
      (p.ip, q) ∉ portJobs ps ∧
      (runScan subnet scan inv ps now).2.ports_found = portsFoundCount ps := by
  refine ⟨rfl, mem_invalidJobs hp hq hbad, rfl, ?_, rfl⟩
  intro hmem
  rw [valid_of_mem_portJobs hmem] at hbad
  cases hbad

/-- C5 witness: the scenario's malformed result (port 99999) on host
10.0.0.5 is rejected while the scan completes. -/
theorem malformed_result_skipped_witness :
    (runScan "10.0.0.0/24" (mkNetworkScan 7 50) emptyInv exProbes 100).2.status =
        "completed" ∧
      (exProbe.ip, badPort) ∈ invalidJobs exProbes ∧
      (runScan "10.0.0.0/24" (mkNetworkScan 7 50) emptyInv exProbes 100).2.error_message =
        String.intercalate "; " ((invalidJobs exProbes).map describeRejected) ∧
      (exProbe.ip, badPort) ∉ portJobs exProbes ∧
      (runScan "10.0.0.0/24" (mkNetworkScan 7 50) emptyInv exProbes 100).2.ports_found =
        portsFoundCount exProbes :=
  malformed_result_skipped "10.0.0.0/24" (mkNetworkScan 7 50) emptyInv exProbes
    100 exProbe badPort (by decide) (by decide) (by decide)

/-- C3: reconciling any probe sequence into an empty device table yields
one Device row per distinct observed (network_id, ip_address) pair. -/
theorem device_rows_eq_distinct_pairs (nid : Nat) (subnet : String)
    (now fid : Nat) (irs : List IPAddress) (prts : List Port) (ps : List Probe) :
    (reconcile nid subnet now ⟨[], irs, prts, fid⟩ ps).devices.length =
      (inNetKeys nid subnet ps).toFinset.card := by
  have h2 := devRun_map_key nid subnet now [] fid ps
  have h3 := congrArg List.length h2
  rw [List.length_map] at h3
  have h : (reconcile nid subnet now ⟨[], irs, prts, fid⟩ ps).devices.length =
      (devRun nid subnet now ([], fid) ps).1.length := rfl
  rw [h, h3]
  exact foldl_insertIfNew_length_nil _

/-- Device table of a reconcile run, as the device-phase fold. -/
theorem reconcile_devices_eq (nid : Nat) (subnet : String) (now : Nat)
    (inv : Inv) (ps : List Probe) :
    (reconcile nid subnet now inv ps).devices =
      (devRun nid subnet now (inv.devices, inv.nextId) ps).1 := rfl

/-- Address table of a reconcile run, as the address-phase fold. -/
theorem reconcile_ipRows_eq (nid : Nat) (subnet : String) (now : Nat)
    (inv : Inv) (ps : List Probe) :
    (reconcile nid subnet now inv ps).ipRows =
      (ipRun now subnet
        (inv.ipRows, (devRun nid subnet now (inv.devices, inv.nextId) ps).2) ps).1 := rfl

/-- Port table of a reconcile run, as the port-phase fold against the
reconciled lookup tables. -/
theorem reconcile_ports_eq (nid : Nat) (subnet : String) (now : Nat)
    (inv : Inv) (ps : List Probe) :
    (reconcile nid subnet now inv ps).ports =
      (portRun nid subnet now
        ((reconcile nid subnet now inv ps).devices.map deviceSig)
        ((reconcile nid subnet now inv ps).ipRows.map ipSig)
        (inv.ports,
          (ipRun now subnet
            (inv.ipRows, (devRun nid subnet now (inv.devices, inv.nextId) ps).2) ps).2)
        (portJobs ps)).1 := rfl

/-- Re-reconciling the same probes changes no device lookup signature. -/
theorem reconcile_rerun_devices_sig (nid : Nat) (subnet : String)
    (now now' : Nat) (inv : Inv) (ps : List Probe) :
    (reconcile nid subnet now' (reconcile nid subnet now inv ps) ps).devices.map deviceSig =
      (reconcile nid subnet now inv ps).devices.map deviceSig := by
  rw [reconcile_devices_eq nid subnet now' (reconcile nid subnet now inv ps) ps]
  refine devRun_map_sig nid subnet now' _ _ ps ?_
  intro k hk
  rw [reconcile_devices_eq]
  exact devRun_key_complete nid subnet now inv.devices inv.nextId ps k hk

/-- Re-reconciling the same probes changes no address lookup signature. -/
theorem reconcile_rerun_ipRows_sig (nid : Nat) (subnet : String)
    (now now' : Nat) (inv : Inv) (ps : List Probe) :
    (reconcile nid subnet now' (reconcile nid subnet now inv ps) ps).ipRows.map ipSig =
      (reconcile nid subnet now inv ps).ipRows.map ipSig := by
  rw [reconcile_ipRows_eq nid subnet now' (reconcile nid subnet now inv ps) ps]
  refine ipRun_map_sig now' subnet _ _ ps ?_
  intro k hk
  rw [reconcile_ipRows_eq]
  exact ipRun_key_complete now subnet inv.ipRows
    (devRun nid subnet now (inv.devices, inv.nextId) ps).2 ps k hk

/-- Re-reconciling the same probes changes no port key: every job key is
already present, so the port phase only updates rows in place. -/
theorem reconcile_rerun_ports_key (nid : Nat) (subnet : String)
    (now now' : Nat) (inv : Inv) (ps : List Probe) :
    (reconcile nid subnet now' (reconcile nid subnet now inv ps) ps).ports.map portKey =
      (reconcile nid subnet now inv ps).ports.map portKey := by
  rw [reconcile_ports_eq nid subnet now' (reconcile nid subnet now inv ps) ps]
  rw [reconcile_rerun_devices_sig nid subnet now now' inv ps]
  rw [reconcile_rerun_ipRows_sig nid subnet now now' inv ps]
  refine portRun_map_key_of_complete nid subnet now' _ _ _ _ (portJobs ps) ?_
  intro k hk
  rw [reconcile_ports_eq]
  exact portRun_key_complete nid subnet now _ _ inv.ports _ (portJobs ps) k hk

/-- C8: re-running a scan on identical probe results is idempotent: the
second run reports the same devices_found and ports_found as the first and
changes no table's row count, update-only with no duplication. -/
theorem rerun_scan_idempotent (subnet : String) (scan : NetworkScan)
    (inv : Inv) (ps : List Probe) (now now' : Nat) :
    ((runScan subnet (runScan subnet scan inv ps now).2
        (runScan subnet scan inv ps now).1 ps now').2.devices_found =
      (runScan subnet scan inv ps now).2.devices_found) ∧
    ((runScan subnet (runScan subnet scan inv ps now).2
        (runScan subnet scan inv ps now).1 ps now').2.ports_found =
      (runScan subnet scan inv ps now).2.ports_found) ∧
    ((runScan subnet (runScan subnet scan inv ps now).2
        (runScan subnet scan inv ps now).1 ps now').1.devices.length =
      (runScan subnet scan inv ps now).1.devices.length) ∧
    ((runScan subnet (runScan subnet scan inv ps now).2
        (runScan subnet scan inv ps now).1 ps now').1.ipRows.length =
      (runScan subnet scan inv ps now).1.ipRows.length) ∧
    ((runScan subnet (runScan subnet scan inv ps now).2
        (runScan subnet scan inv ps now).1 ps now').1.ports.length =
      (runScan subnet scan inv ps now).1.ports.length) := by
  refine ⟨rfl, rfl, ?_, ?_, ?_⟩
  · exact length_eq_of_map_eq
      (reconcile_rerun_devices_sig scan.network_id subnet now now' inv ps)
  · exact length_eq_of_map_eq
      (reconcile_rerun_ipRows_sig scan.network_id subnet now now' inv ps)
  · exact length_eq_of_map_eq
      (reconcile_rerun_ports_key scan.network_id subnet now now' inv ps)

end App
